import Mathlib

/-!
Shallow embedding of the throttle-prevention client in `src/shark/bea.py`
(`_ThrottleWatchdog`, its nested `Response` / `State` classes, and `_API.get`).

Times and server-advised waits are modelled as rationals (Python `datetime`
differences via `total_seconds()` and `float` retry values); payload sizes and
counters as naturals.  The per-credential window (`State.responses`, a Python
`deque` appended on the right and popped on the left) is a `List Response`
with the OLDEST record first and the YOUNGEST (most recent) record last.
-/

namespace Shark

/-- Source `_ThrottleWatchdog.Response`: one completed BEA API response, reduced to
throttle-relevant fields (`time`, `size`, `is_error`, `retry_after`). -/
structure Response where
  time : ℚ
  size : ℕ
  is_error : Bool
  retry_after : ℚ
deriving DecidableEq, Repr

/-- Limit constants from `_API`: `max_errors_per_minute = 30`. -/
def max_errors_per_minute : ℕ := 30

/-- Source `_API.max_requests_per_minute = 100`. -/
def max_requests_per_minute : ℕ := 100

/-- Source `_API.max_volume_per_minute = 100e6` bytes. -/
def max_volume_per_minute : ℕ := 100000000

/-- Timestamp of the oldest record (`State.oldest`, i.e. `responses[0]`);
`0` as a formal default for the empty window, which the Python code indexes
only when the window is nonempty. -/
def oldestTime (w : List Response) : ℚ :=
  ((w.head?).map Response.time).getD 0

/-- Timestamp of the youngest record (`State.youngest`, i.e. `responses[-1]`). -/
def youngestTime (w : List Response) : ℚ :=
  ((w.getLast?).map Response.time).getD 0

/-- The `retry_after` of the youngest record (read by `next_valid_request_dt`). -/
def youngestRetryAfter (w : List Response) : ℚ :=
  ((w.getLast?).map Response.retry_after).getD 0

/-- Source `State.pop`: remove responses from the LEFT (oldest end) of the deque
while the window is nonempty and the gap between the youngest and oldest
record strictly exceeds 60 seconds. -/
def pop : List Response → List Response
  | [] => []
  | r :: rest =>
      if 60 < youngestTime (r :: rest) - r.time then pop rest
      else r :: rest

@[simp]
theorem pop_nil : pop [] = [] := rfl

theorem pop_cons (r : Response) (rest : List Response) :
    pop (r :: rest) =
      if 60 < youngestTime (r :: rest) - r.time then pop rest
      else r :: rest := rfl

/-- Eviction only drops records from the front: the result is a suffix. -/
theorem pop_suffix (w : List Response) : (pop w).IsSuffix w := by
  induction w with
  | nil => simp
  | cons r rest ih =>
      rw [pop_cons]
      by_cases h : 60 < youngestTime (r :: rest) - r.time
      · simp only [h, if_pos]
        exact ih.trans (List.suffix_cons r rest)
      · simp only [h, if_neg, not_false_iff]
        exact List.suffix_refl _

/-- A nonempty window stays nonempty after eviction. -/
theorem pop_ne_nil (w : List Response) (h : w ≠ []) : pop w ≠ [] := by
  induction w with
  | nil => exact absurd rfl h
  | cons r rest ih =>
      rw [pop_cons]
      by_cases hc : 60 < youngestTime (r :: rest) - r.time
      · simp only [hc, if_pos]
        have hrest : rest ≠ [] := by
          intro hnil
          subst hnil
          simp [youngestTime] at hc
          linarith
        exact ih hrest
      · simp only [hc, if_neg, not_false_iff]
        exact List.cons_ne_nil r rest

/-- Eviction never touches the youngest record. -/
theorem pop_getLast? (w : List Response) (h : w ≠ []) :
    (pop w).getLast? = w.getLast? := by
  induction w with
  | nil => exact absurd rfl h
  | cons r rest ih =>
      rw [pop_cons]
      by_cases hc : 60 < youngestTime (r :: rest) - r.time
      · simp only [hc, if_pos]
        have hrest : rest ≠ [] := by
          intro hnil
          subst hnil
          simp [youngestTime] at hc
          linarith
        obtain ⟨b, t, rfl⟩ := List.exists_cons_of_ne_nil hrest
        rw [ih (List.cons_ne_nil b t), List.getLast?_cons_cons]
      · simp only [hc, if_neg, not_false_iff]

/-- Eviction is idempotent: a second lazy cleanup right after a first one
removes nothing.  This justifies collapsing the three successive `pop` calls
performed inside `is_throttled` (one per metric property) into one. -/
theorem pop_idem (w : List Response) : pop (pop w) = pop w := by
  induction w with
  | nil => simp
  | cons r rest ih =>
      rw [pop_cons]
      by_cases hc : 60 < youngestTime (r :: rest) - r.time
      · simp only [hc, if_pos]
        exact ih
      · simp only [hc, if_neg, not_false_iff]
        rw [pop_cons]
        simp only [hc, if_neg, not_false_iff]

/-- Source `State.errors_per_minute`: evict stale records, then count error
responses left in the window. -/
def errors_per_minute (w : List Response) : ℕ :=
  ((pop w).filter (fun r => r.is_error)).length

/-- Source `State.requests_per_minute`: evict stale records, then count the
responses left in the window. -/
def requests_per_minute (w : List Response) : ℕ :=
  (pop w).length

/-- Source `State.volume_per_minute`: evict stale records, then sum the byte sizes
of the responses left in the window. -/
def volume_per_minute (w : List Response) : ℕ :=
  ((pop w).map Response.size).sum

/-- Source `State.is_throttled`: the three metric reads (each of which performs the
same lazy eviction; `pop` is idempotent, see `pop_idem`) compared against the
`_API` limits with `>=`, combined with `|=` (boolean or). -/
def is_throttled (w : List Response) : Bool :=
  decide (max_errors_per_minute ≤ errors_per_minute w)
    || decide (max_requests_per_minute ≤ requests_per_minute w)
    || decide (max_volume_per_minute ≤ volume_per_minute w)

/-- Source `State.next_valid_request_dt`: `0` on an empty window; otherwise start
from the youngest record's `retry_after` and, when the window is throttled,
take the max with `60` minus the youngest-to-oldest gap of the window as it
stands after the eviction performed inside `is_throttled`. -/
def next_valid_request_dt (w : List Response) : ℚ :=
  if w = [] then 0
  else if is_throttled w then
    max (youngestRetryAfter w)
      (60 - (youngestTime (pop w) - oldestTime (pop w)))
  else youngestRetryAfter w

/-- The deque state left behind by a `next_valid_request_dt` read: the
eviction inside `is_throttled` runs exactly when the window is nonempty. -/
def next_valid_request_state (w : List Response) : List Response :=
  if w = [] then w else pop w

/-- Raw HTTP response as seen by `State.update`: cache flag
(`hasattr(response, "from_cache") and response.from_cache`), HTTP status
code, the `Retry-After` header already parsed as a float number of seconds
(`none` when the header is absent or not parseable, in which case the Python
`float(response.headers[...])` raises), and payload length. -/
structure RawResponse where
  from_cache : Bool
  status_code : ℕ
  retryAfterHeader : Option ℚ
  content_size : ℕ
deriving DecidableEq, Repr

/-- The record appended by `State.update` for a non-cached response, built
as in the Python constructor call (`datetime.now`, `len(response.content)`,
`status_code != 200`, `retry_after`). -/
def recordedOf (resp : RawResponse) (now ra : ℚ) : Response :=
  ⟨now, resp.content_size, decide (resp.status_code ≠ 200), ra⟩

/-- Source `State.update`: cached responses return `0.0` immediately without
touching the deque.  Otherwise `retry_after` is the parsed `Retry-After`
header for a 429 status (raising — modelled as `none` — when absent or
malformed) and `0.0` for any other status; a `Response` record stamped `now`
is appended on the right, and the result is `next_valid_request_dt` together
with the deque state that read leaves behind. -/
def update (w : List Response) (resp : RawResponse) (now : ℚ) :
    Option (ℚ × List Response) :=
  if resp.from_cache then some (0, w)
  else
    let retryParsed : Option ℚ :=
      if resp.status_code = 429 then resp.retryAfterHeader else some 0
    match retryParsed with
    | none => none
    | some retry_after =>
        let w2 := w ++ [recordedOf resp now retry_after]
        some (next_valid_request_dt w2, next_valid_request_state w2)

/-- Source `_ThrottleWatchdog`: the `states` dict mapping API key to
per-credential window, modelled as an insertion-ordered association list
with unique keys (Python dict semantics). -/
structure Watchdog where
  states : List (String × List Response)
deriving DecidableEq, Repr

/-- First-match association-list lookup (Python dict keys are unique, so
first match is the match). -/
def lookupState : List (String × List Response) → String → Option (List Response)
  | [], _ => none
  | p :: t, k => if p.1 = k then some p.2 else lookupState t k

/-- Dict lookup `states[api_key]` without creation. -/
def Watchdog.find? (wd : Watchdog) (k : String) : Option (List Response) :=
  lookupState wd.states k

/-- Source `_ThrottleWatchdog.__getitem__`: create an empty state on first
access, then return the (possibly new) watchdog together with the window
stored under the key. -/
def Watchdog.getItem (wd : Watchdog) (k : String) : Watchdog × List Response :=
  match wd.find? k with
  | some w => (wd, w)
  | none => (⟨wd.states ++ [(k, [])]⟩, [])

/-- In-place mutation of the window object stored under one key (the Python
`State` is mutable and aliased by the dict entry): apply `f` to the entry at
`k`, leave every other entry untouched. -/
def Watchdog.modifyAt (wd : Watchdog) (k : String) (f : List Response → List Response) :
    Watchdog :=
  ⟨wd.states.map (fun p => if p.1 = k then (p.1, f p.2) else p)⟩

/-- Source `_ThrottleWatchdog.update`: `self.states[api_key].update(response)`
— a plain dict access (`KeyError`, modelled `none`, when the key is absent)
followed by `State.update` on that entry. -/
def Watchdog.updateKey (wd : Watchdog) (k : String) (resp : RawResponse) (now : ℚ) :
    Option (ℚ × Watchdog) :=
  match wd.find? k with
  | none => none
  | some w =>
      match update w resp now with
      | none => none
      | some (dt, w2) => some (dt, wd.modifyAt k (fun _ => w2))

/-- Errors raised by `_API.get`: the missing-credential `RuntimeError`
(the spec's `MissingCredentialError`), and a propagated header-parse
failure from the throttle bookkeeping. -/
inductive ApiError
  | missingCredential
  | headerFailure
deriving DecidableEq, Repr

/-- Source `_API.get` credential resolution:
`api_key = api_key or os.environ.get("BEA_API_KEY", None)` followed by
`if not api_key: raise ...` — Python truthiness makes the empty string count
as missing at both steps. -/
def resolve_api_key (explicitKey envKey : Option String) : Option String :=
  let k : Option String :=
    match explicitKey with
    | some s => if s = "" then envKey else some s
    | none => envKey
  match k with
  | some s => if s = "" then none else some s
  | none => none

/-- Source `_API.get`, reduced to its credential/throttle/network skeleton
(JSON decoding and result-key selection are out of scope).  Returns the
number of HTTP requests issued, the final watchdog, and either an error or
the pre-request sleep duration.  On the success path: resolve the key, get
or create its state, read `next_valid_request_dt` (which evicts), sleep,
issue the single HTTP GET (`net` stands for the raw response the network
returns), and feed it to the watchdog's `update`. -/
def api_get (wd : Watchdog) (explicitKey envKey : Option String)
    (net : RawResponse) (now : ℚ) : ℕ × Watchdog × Except ApiError ℚ :=
  match resolve_api_key explicitKey envKey with
  | none => (0, wd, Except.error ApiError.missingCredential)
  | some key =>
      let p := (Watchdog.getItem wd key)
      let sleepFor := next_valid_request_dt p.2
      let wd2 := (p.1).modifyAt key next_valid_request_state
      match wd2.updateKey key net now with
      | none => (1, wd2, Except.error ApiError.headerFailure)
      | some (_, wd3) => (1, wd3, Except.ok sleepFor)

/-! Helper lemmas shared by the claim theorems. -/

@[simp]
theorem oldestTime_cons (r : Response) (rest : List Response) :
    oldestTime (r :: rest) = r.time := rfl

theorem youngestTime_append_single (w : List Response) (r : Response) :
    youngestTime (w ++ [r]) = r.time := by
  simp [youngestTime]

theorem youngestRetryAfter_append_single (w : List Response) (r : Response) :
    youngestRetryAfter (w ++ [r]) = r.retry_after := by
  simp [youngestRetryAfter]

/-- The youngest record's `retry_after` is a lower bound on the computed
wait for a nonempty window. -/
theorem youngestRetryAfter_le_next_valid_request_dt (w : List Response)
    (h : w ≠ []) : youngestRetryAfter w ≤ next_valid_request_dt w := by
  rw [next_valid_request_dt]
  simp only [h, if_neg, not_false_iff]
  by_cases ht : is_throttled w
  · simp only [ht, if_pos]
    exact le_max_left _ _
  · simp only [ht, if_neg, not_false_iff]
    exact le_refl _

/-- After eviction the youngest-to-oldest gap is at most 60 seconds. -/
theorem pop_gap_le (w : List Response) (h : w ≠ []) :
    youngestTime (pop w) - oldestTime (pop w) ≤ 60 := by
  induction w with
  | nil => exact absurd rfl h
  | cons r rest ih =>
      rw [pop_cons]
      by_cases hc : 60 < youngestTime (r :: rest) - r.time
      · simp only [hc, if_pos]
        have hrest : rest ≠ [] := by
          intro hnil
          subst hnil
          simp [youngestTime] at hc
          linarith
        exact ih hrest
      · simp only [hc, if_neg, not_false_iff, oldestTime_cons]
        linarith [not_lt.mp hc]

/-- Monotone arrival order: the deque is appended in timestamp order
(`datetime.now` at each `update`). -/
abbrev timeSorted (w : List Response) : Prop :=
  w.Pairwise (fun a b => a.time ≤ b.time)

theorem youngestTime_cons_of_ne_nil (a : Response) (l : List Response)
    (h : l ≠ []) : youngestTime (a :: l) = youngestTime l := by
  obtain ⟨b, t, rfl⟩ := List.exists_cons_of_ne_nil h
  simp [youngestTime, List.getLast?_cons_cons]

theorem time_le_youngestTime (w : List Response) : timeSorted w →
    ∀ r ∈ w, r.time ≤ youngestTime w := by
  induction w with
  | nil =>
      intro _ r hr
      exact absurd hr (List.not_mem_nil r)
  | cons a l ih =>
      intro hp r hr
      cases l with
      | nil =>
          have hra : r = a := by simpa using hr
          subst hra
          simp [youngestTime]
      | cons b t =>
          rw [youngestTime_cons_of_ne_nil a (b :: t) (List.cons_ne_nil b t)]
          have hp2 := List.pairwise_cons.mp hp
          rcases List.mem_cons.mp hr with h1 | h2
          · subst h1
            have hlast := List.getLast_mem (List.cons_ne_nil b t)
            have hle := hp2.1 _ hlast
            rw [youngestTime,
              List.getLast?_eq_getLast (b :: t) (List.cons_ne_nil b t)]
            simpa using hle
          · exact ih hp2.2 r h2

theorem oldestTime_le_time (w : List Response) : timeSorted w →
    ∀ r ∈ w, oldestTime w ≤ r.time := by
  cases w with
  | nil =>
      intro _ r hr
      exact absurd hr (List.not_mem_nil r)
  | cons a l =>
      intro hp r hr
      rw [oldestTime_cons]
      rcases List.mem_cons.mp hr with h1 | h2
      · subst h1
        exact le_refl _
      · exact (List.pairwise_cons.mp hp).1 r h2

/-- A window whose youngest-to-oldest gap is already at most 60 seconds is
untouched by eviction. -/
theorem pop_eq_self_of_gap_le (w : List Response)
    (h : youngestTime w - oldestTime w ≤ 60) : pop w = w := by
  cases w with
  | nil => rfl
  | cons r rest =>
      rw [pop_cons]
      rw [oldestTime_cons] at h
      simp only [not_lt.mpr h, if_neg, not_false_iff]

/-- Example window for concrete witnesses: records at 0 s, 61 s and 70 s,
so eviction drops exactly the first record. -/
def sampleWindow : List Response :=
  [⟨0, 1, false, 0⟩, ⟨61, 2, false, 0⟩, ⟨70, 3, false, 0⟩]

/-! The claim theorems. -/

/-- C1: on an empty window `next_valid_request_dt` returns 0; on a nonempty
window it returns `serverWait` (the `retry_after` of the most recent record)
when the state is not throttled, and the max of `serverWait` with `60` minus
the elapsed seconds between the oldest and the newest record of the window
(as it stands after the lazy eviction every metric read performs) when it
is.  The second conjunct records that eviction never changes which record is
newest, so both readings of "newest record" agree. -/
theorem claim1_next_valid_request_wait (w : List Response) :
    next_valid_request_dt w =
      (if w = [] then 0
       else if is_throttled w then
        max (youngestRetryAfter w)
          (60 - (youngestTime (pop w) - oldestTime (pop w)))
       else youngestRetryAfter w) ∧
    youngestTime (pop w) = youngestTime w := by
  constructor
  · rfl
  · by_cases h : w = []
    · subst h
      rfl
    · rw [youngestTime, youngestTime, pop_getLast? w h]

/-- C2: `is_throttled` holds exactly when, after evicting stale records, the
error count is at least 30, or the request count is at least 100, or the
byte volume is at least 100,000,000; and a single non-cached response of
100,000,001 bytes recorded into an empty window trips it immediately. -/
theorem claim2_is_throttled_iff :
    (∀ w : List Response, is_throttled w = true ↔
      (30 ≤ errors_per_minute w ∨ 100 ≤ requests_per_minute w ∨
        100000000 ≤ volume_per_minute w)) ∧
    (∃ p, update [] ⟨false, 200, none, 100000001⟩ 0 = some p ∧
      is_throttled p.2 = true) := by
  constructor
  · intro w
    simp [is_throttled, max_errors_per_minute, max_requests_per_minute,
      max_volume_per_minute, Bool.or_eq_true, decide_eq_true_eq, or_assoc]
  · refine ⟨(60, [⟨0, 100000001, false, 0⟩]), ?_, ?_⟩
    · norm_num [update, recordedOf, next_valid_request_dt,
        next_valid_request_state, is_throttled, errors_per_minute,
        requests_per_minute, volume_per_minute, pop, youngestTime, oldestTime,
        youngestRetryAfter, max_errors_per_minute, max_requests_per_minute,
        max_volume_per_minute]
    · norm_num [is_throttled, errors_per_minute, requests_per_minute,
        volume_per_minute, pop, youngestTime, max_errors_per_minute,
        max_requests_per_minute, max_volume_per_minute]

/-- C4: recording a response flagged as served from the local cache returns
a wait of 0 and leaves the window exactly as it was. -/
theorem claim4_cache_bypass (w : List Response) (resp : RawResponse)
    (now : ℚ) (h : resp.from_cache = true) : update w resp now = some (0, w) := by
  rw [update]
  simp [h]

/-- Witness for C4 at a concrete cached response. -/
theorem claim4_witness :
    update sampleWindow ⟨true, 429, none, 5⟩ 71 = some (0, sampleWindow) :=
  claim4_cache_bypass sampleWindow ⟨true, 429, none, 5⟩ 71 rfl

/-- C10: eviction never removes the most recent record — a nonempty window
stays nonempty after `pop`, its newest record is unchanged, and consequently
the `responses[0]` access inside `next_valid_request_dt` finds a record. -/
theorem claim10_eviction_keeps_youngest (w : List Response) (h : w ≠ []) :
    pop w ≠ [] ∧ (pop w).getLast? = w.getLast? ∧
      ((pop w).head?).isSome = true := by
  refine ⟨pop_ne_nil w h, pop_getLast? w h, ?_⟩
  cases hp : pop w with
  | nil => exact absurd hp (pop_ne_nil w h)
  | cons a l => rfl

/-- C3: after any eviction, every record left in the window is within 60
seconds of the newest record (the window is in arrival order, timestamps
nondecreasing), and eviction removes records only from the front — the
evicted window is a suffix of the original. -/
theorem claim3_window_eviction (w : List Response) (hs : timeSorted w) :
    (∀ r ∈ pop w, |youngestTime (pop w) - r.time| ≤ 60) ∧
      (pop w).IsSuffix w := by
  refine ⟨?_, pop_suffix w⟩
  intro r hr
  have hne : w ≠ [] := by
    intro h
    subst h
    simp at hr
  have hps : timeSorted (pop w) :=
    List.Pairwise.sublist (pop_suffix w).sublist hs
  have h1 : oldestTime (pop w) ≤ r.time := oldestTime_le_time (pop w) hps r hr
  have h2 : r.time ≤ youngestTime (pop w) :=
    time_le_youngestTime (pop w) hps r hr
  have h3 : youngestTime (pop w) - oldestTime (pop w) ≤ 60 := pop_gap_le w hne
  rw [abs_le]
  constructor <;> linarith

/-- Witness for C3 on the concrete three-record window (the 0-second record
is evicted, the 61- and 70-second records remain). -/
theorem claim3_witness :
    (∀ r ∈ pop sampleWindow, |youngestTime (pop sampleWindow) - r.time| ≤ 60) ∧
      (pop sampleWindow).IsSuffix sampleWindow :=
  claim3_window_eviction sampleWindow (by decide)

/-- C5 counterexample: a non-cached 429 response whose `Retry-After` header
is absent or malformed makes `State.update` raise (`none` in the embedding,
a `KeyError`/`ValueError` from `float(response.headers["Retry-After"])` in
the Python), contradicting the claim that the bookkeeping degrades to
`retry_after_seconds = 0` without failing the call. -/
theorem claim5_counterexample :
    update [] ⟨false, 429, none, 5⟩ 0 = none := rfl

/-- C5 amended: for every non-cached response whose status is not 429 the
`Retry-After` value is never consulted — absent or malformed values are
irrelevant, the record is appended with `retry_after_seconds = 0` and the
call succeeds; for a 429 status, however, an absent or malformed
`Retry-After` makes the call raise instead of degrading to 0 (see the
counterexample). -/
theorem claim5_retry_after_default (w : List Response) (resp : RawResponse)
    (now : ℚ) (hc : resp.from_cache = false) (hs : resp.status_code ≠ 429) :
    update w resp now =
      some (next_valid_request_dt (w ++ [recordedOf resp now 0]),
        next_valid_request_state (w ++ [recordedOf resp now 0])) := by
  rw [update]
  simp [hc, hs]

/-- Witness for C5 (amended) at a concrete malformed-header 500 response. -/
theorem claim5_witness :
    update [] ⟨false, 500, none, 7⟩ 2 =
      some (next_valid_request_dt ([] ++ [recordedOf ⟨false, 500, none, 7⟩ 2 0]),
        next_valid_request_state ([] ++ [recordedOf ⟨false, 500, none, 7⟩ 2 0])) :=
  claim5_retry_after_default [] ⟨false, 500, none, 7⟩ 2 rfl (by decide)

/-- C6: recording a non-cached HTTP 429 response carrying
`Retry-After = 12.5` yields a wait of at least 12.5 seconds, and an
immediate `next_valid_request_dt` on the state it leaves behind is also at
least 12.5 — the newest record's retry-after is honored as the minimum wait
for the next request. -/
theorem claim6_retry_after_honored (w : List Response) (resp : RawResponse)
    (now dt : ℚ) (w2 : List Response)
    (hc : resp.from_cache = false) (hs : resp.status_code = 429)
    (hh : resp.retryAfterHeader = some 12.5)
    (hu : update w resp now = some (dt, w2)) :
    12.5 ≤ dt ∧ 12.5 ≤ next_valid_request_dt w2 := by
  rw [update] at hu
  rw [hc, hs] at hu
  simp only [Bool.false_eq_true, if_false, if_pos, hh, Option.some.injEq,
    Prod.mk.injEq] at hu
  obtain ⟨hdt, hw2⟩ := hu
  have happ : w ++ [recordedOf resp now 12.5] ≠ [] := by simp
  have hra : youngestRetryAfter (w ++ [recordedOf resp now 12.5]) = 12.5 := by
    rw [youngestRetryAfter_append_single]
    rfl
  constructor
  · have hle := youngestRetryAfter_le_next_valid_request_dt _ happ
    rw [hra, hdt] at hle
    exact hle
  · rw [← hw2, next_valid_request_state, if_neg happ]
    have h1 : pop (w ++ [recordedOf resp now 12.5]) ≠ [] := pop_ne_nil _ happ
    have h2 : youngestRetryAfter (pop (w ++ [recordedOf resp now 12.5])) =
        youngestRetryAfter (w ++ [recordedOf resp now 12.5]) := by
      rw [youngestRetryAfter, youngestRetryAfter, pop_getLast? _ happ]
    have hle := youngestRetryAfter_le_next_valid_request_dt _ h1
    rw [h2, hra] at hle
    exact hle

/-- Concrete evaluation used by the C6 witness: recording a 429 response
with `Retry-After = 12.5` into an empty window returns exactly 12.5 (the
fresh window is not throttled). -/
theorem update_429_sample :
    update [] ⟨false, 429, some 12.5, 5⟩ 0 =
      some (12.5, [recordedOf ⟨false, 429, some 12.5, 5⟩ 0 12.5]) := by
  norm_num [update, recordedOf, next_valid_request_dt,
    next_valid_request_state, is_throttled, errors_per_minute,
    requests_per_minute, volume_per_minute, pop, youngestTime, oldestTime,
    youngestRetryAfter, max_errors_per_minute, max_requests_per_minute,
    max_volume_per_minute]

/-- Witness for C6 at the concrete 429 / 12.5 response. -/
theorem claim6_witness :
    (12.5 : ℚ) ≤ 12.5 ∧
      (12.5 : ℚ) ≤
        next_valid_request_dt [recordedOf ⟨false, 429, some 12.5, 5⟩ 0 12.5] :=
  claim6_retry_after_honored [] ⟨false, 429, some 12.5, 5⟩ 0 12.5
    [recordedOf ⟨false, 429, some 12.5, 5⟩ 0 12.5] rfl rfl rfl update_429_sample

/-- C7: with no explicit credential and no `BEA_API_KEY` in the
environment, `_API.get` fails with the missing-credential error having
issued zero HTTP requests and with the throttle registry returned exactly
as it was — no state is consulted, created or mutated. -/
theorem claim7_missing_credential (wd : Watchdog) (net : RawResponse)
    (now : ℚ) (ek env : Option String) (h1 : ek = none) (h2 : env = none) :
    api_get wd ek env net now =
      (0, wd, Except.error ApiError.missingCredential) := by
  subst h1
  subst h2
  rfl

/-- Witness for C7 on a registry already holding a state for key K1. -/
theorem claim7_witness :
    api_get ⟨[("K1", sampleWindow)]⟩ none none ⟨false, 200, none, 3⟩ 0 =
      (0, ⟨[("K1", sampleWindow)]⟩, Except.error ApiError.missingCredential) :=
  claim7_missing_credential ⟨[("K1", sampleWindow)]⟩ ⟨false, 200, none, 3⟩ 0
    none none rfl rfl

/-- C8: a window holding 101 non-error responses all timestamped within a
10-second span is throttled by the request-count cap, so the next
`next_valid_request_dt` is at least `60 - 10 = 50` seconds. -/
theorem claim8_hundred_one_requests (w : List Response)
    (hlen : w.length = 101)
    (herr : ∀ r ∈ w, r.is_error = false)
    (hspan : ∀ r ∈ w, ∀ s ∈ w, r.time - s.time ≤ 10) :
    50 ≤ next_valid_request_dt w := by
  have hne : w ≠ [] := by
    intro h
    subst h
    simp at hlen
  have hyt : youngestTime w = (w.getLast hne).time := by
    rw [youngestTime, List.getLast?_eq_getLast w hne]
    rfl
  have hot : oldestTime w = (w.head hne).time := by
    rw [oldestTime, List.head?_eq_head hne]
    rfl
  have hgap : youngestTime w - oldestTime w ≤ 10 := by
    rw [hyt, hot]
    exact hspan _ (List.getLast_mem hne) _ (List.head_mem hne)
  have hpop : pop w = w := pop_eq_self_of_gap_le w (by linarith)
  have hreq : requests_per_minute w = 101 := by
    rw [requests_per_minute, hpop, hlen]
  have hthr : is_throttled w = true := by
    rw [is_throttled, hreq]
    simp [max_requests_per_minute]
  rw [next_valid_request_dt, if_neg hne, if_pos hthr, hpop]
  have h50 : (50 : ℚ) ≤ 60 - (youngestTime w - oldestTime w) := by linarith
  exact le_trans h50 (le_max_right _ _)

/-- Window of 101 identically-timed successful responses for the C8
witness. -/
def replicatedWindow : List Response :=
  List.replicate 101 ⟨0, 0, false, 0⟩

/-- Witness for C8 on 101 responses all received at time 0. -/
theorem claim8_witness : 50 ≤ next_valid_request_dt replicatedWindow :=
  claim8_hundred_one_requests replicatedWindow
    (by simp [replicatedWindow])
    (by simp [replicatedWindow, List.mem_replicate])
    (by simp [replicatedWindow, List.mem_replicate])

/-- Keys differing from the modified one see exactly the same entry after a
per-key in-place mutation. -/
theorem lookupState_map_modify (A B : String) (hAB : A ≠ B)
    (f : List Response → List Response) :
    ∀ states : List (String × List Response),
      lookupState
        (states.map (fun p => if p.1 = A then (p.1, f p.2) else p)) B =
      lookupState states B := by
  intro states
  induction states with
  | nil => rfl
  | cons p t ih =>
      by_cases hpA : p.1 = A
      · have hpB : ¬ p.1 = B := by
          rw [hpA]
          exact hAB
        simp only [List.map_cons, if_pos hpA, lookupState]
        rw [if_neg hpB, if_neg hpB]
        exact ih
      · simp only [List.map_cons, if_neg hpA, lookupState]
        by_cases hpB : p.1 = B
        · rw [if_pos hpB, if_pos hpB]
        · rw [if_neg hpB, if_neg hpB]
          exact ih

/-- Appending a fresh entry for key A does not change what key B sees. -/
theorem lookupState_append_single (A B : String) (hAB : A ≠ B) :
    ∀ t : List (String × List Response),
      lookupState (t ++ [(A, [])]) B = lookupState t B := by
  intro t
  induction t with
  | nil =>
      simp only [List.nil_append, lookupState]
      rw [if_neg hAB]
  | cons p t2 ih =>
      simp only [List.cons_append, lookupState]
      by_cases hpB : p.1 = B
      · rw [if_pos hpB, if_pos hpB]
      · rw [if_neg hpB, if_neg hpB]
        exact ih

/-- C9: for distinct credentials A and B, every operation on A's throttle
state leaves B's state unchanged — lookup/creation through `__getitem__`,
any in-place mutation of A's window (record append, lazy eviction on metric
reads), and `_ThrottleWatchdog.update`. -/
theorem claim9_independent_credentials (wd : Watchdog) (A B : String)
    (hAB : A ≠ B) :
    ((wd.getItem A).1).find? B = wd.find? B ∧
    (∀ f, (wd.modifyAt A f).find? B = wd.find? B) ∧
    (∀ resp now dt wd2, wd.updateKey A resp now = some (dt, wd2) →
      wd2.find? B = wd.find? B) := by
  refine ⟨?_, ?_, ?_⟩
  · rw [Watchdog.getItem]
    cases hfa : wd.find? A with
    | some w => rfl
    | none =>
        show Watchdog.find? ⟨wd.states ++ [(A, [])]⟩ B = wd.find? B
        rw [Watchdog.find?, Watchdog.find?]
        exact lookupState_append_single A B hAB wd.states
  · intro f
    rw [Watchdog.modifyAt, Watchdog.find?, Watchdog.find?]
    exact lookupState_map_modify A B hAB f wd.states
  · intro resp now dt wd2 hupd
    rw [Watchdog.updateKey] at hupd
    cases hfa : wd.find? A with
    | none =>
        rw [hfa] at hupd
        cases hupd
    | some w =>
        simp only [hfa] at hupd
        cases hu2 : update w resp now with
        | none =>
            simp only [hu2] at hupd
            cases hupd
        | some pr =>
            obtain ⟨dt0, w0⟩ := pr
            simp only [hu2, Option.some.injEq, Prod.mk.injEq] at hupd
            obtain ⟨-, hw⟩ := hupd
            rw [← hw, Watchdog.modifyAt, Watchdog.find?, Watchdog.find?]
            exact lookupState_map_modify A B hAB (fun _ => w0) wd.states

/-- Witness for C9 on a two-credential registry. -/
theorem claim9_witness :
    ((Watchdog.getItem ⟨[("K1", sampleWindow), ("K2", [])]⟩ "K1").1).find? "K2" =
      (⟨[("K1", sampleWindow), ("K2", [])]⟩ : Watchdog).find? "K2" ∧
    (∀ f, ((⟨[("K1", sampleWindow), ("K2", [])]⟩ : Watchdog).modifyAt "K1" f).find? "K2" =
      (⟨[("K1", sampleWindow), ("K2", [])]⟩ : Watchdog).find? "K2") ∧
    (∀ resp now dt wd2,
      (⟨[("K1", sampleWindow), ("K2", [])]⟩ : Watchdog).updateKey "K1" resp now =
          some (dt, wd2) →
        wd2.find? "K2" =
          (⟨[("K1", sampleWindow), ("K2", [])]⟩ : Watchdog).find? "K2") :=
  claim9_independent_credentials ⟨[("K1", sampleWindow), ("K2", [])]⟩ "K1" "K2"
    (by decide)

/-- Witness for C10 on the concrete three-record window. -/
theorem claim10_witness :
    pop sampleWindow ≠ [] ∧
      (pop sampleWindow).getLast? = sampleWindow.getLast? ∧
      ((pop sampleWindow).head?).isSome = true :=
  claim10_eviction_keeps_youngest sampleWindow (by decide)

end Shark
